import Mathlib

set_option maxRecDepth 8192

/-!
Verification of the GMR-1 AMBE decode orchestration core
(`src/codec/ambe.c`) against its natural-language specification.

Modelling conventions.  C floats are modelled as real numbers; C `int`
values as `ℤ`; the caller-owned PCM buffer as a total function `ℕ → ℤ`
(a write touches only the stated index range).  The external
collaborators (the bit-level parameter codec `ambe_frame_unpack_raw` /
`ambe_frame_decode_params`, the mbelib synthesis engine, and the tone
decoder) are not part of this core: they are modelled as an abstract
record of opaque functions, and every decode run also records the
sequence of collaborator calls together with the arguments that the
core actually passes, so that claims about which values reach a
collaborator are statements about that trace.
-/

/-- Frame kinds, mirroring `enum ambe_frame_type`. -/
inductive ambe_frame_type
  | speech
  | silence
  | tone
  deriving DecidableEq, Repr

/-- A frame is 10 bytes (80 bits); each byte is a value below 256. -/
def ambe_frame : Type := Fin 10 → Fin 256

/-- Mirrors `struct ambe_subframe`: fundamental frequency `f0`,
spectral order `L`, per-band voicing flags `v_uv` (C ints, 0 = unvoiced)
and per-harmonic log-magnitudes `Mlog`. -/
structure ambe_subframe where
  f0 : ℝ
  L : ℤ
  v_uv : ℤ → ℤ
  Mlog : ℤ → ℝ

/-- Mirrors the fields of mbelib's `mbe_parms` that this core touches:
angular frequency `w0`, order `L`, voicing flags `Vl`, magnitudes `Ml`. -/
structure mbe_parms where
  w0 : ℝ
  L : ℤ
  Vl : ℤ → ℤ
  Ml : ℤ → ℝ

/-- Mirrors `struct ambe_decoder`: the previous subframe (parameter
decoding context) and the previous synthesis parameters. -/
structure ambe_decoder where
  sf_prev : ambe_subframe
  mp_prev : mbe_parms

/-- C cast `(int)x` of a float: truncation toward zero. -/
noncomputable def ctrunc (x : ℝ) : ℤ :=
  if 0 ≤ x then ⌊x⌋ else ⌈x⌉

/-- Embedding of `ambe_classify_frame` (ambe.c lines 60-73): a switch on
`frame[0] & 0xfc`, testing the Tone pattern before the Silence pattern. -/
def ambe_classify_frame (frame : ambe_frame) : ambe_frame_type :=
  if (frame 0).val &&& 0xfc = 0xfc then ambe_frame_type.tone
  else if (frame 0).val &&& 0xfc = 0xf8 then ambe_frame_type.silence
  else ambe_frame_type.speech

/-- Embedding of `ambe_subframe_to_mbelib` (ambe.c lines 79-97).  The
output structure `mp` is a stack local in C, so the fields outside the
written range keep the indeterminate initial contents `mp0`.  The loop
body writes `Vl[i]` and `Ml[i]` for `i = 1..L` only, at pairwise
distinct indices, so it is modelled pointwise. -/
noncomputable def ambe_subframe_to_mbelib (mp0 : mbe_parms) (sf : ambe_subframe) : mbe_parms :=
  let w0 : ℝ := sf.f0 * (2 * Real.pi)
  let unvc : ℝ := 0.2046 / Real.sqrt w0
  { w0 := w0
    L := sf.L
    Vl := fun i =>
      if 1 ≤ i ∧ i ≤ sf.L then
        sf.v_uv (ctrunc (((i - 1 : ℤ) : ℝ) * 16 * sf.f0))
      else mp0.Vl i
    Ml := fun i =>
      if 1 ≤ i ∧ i ≤ sf.L then
        (if sf.v_uv (ctrunc (((i - 1 : ℤ) : ℝ) * 16 * sf.f0)) = 0 then
          (2 : ℝ) ^ (sf.Mlog (i - 1)) / 6 * unvc
        else
          (2 : ℝ) ^ (sf.Mlog (i - 1)) / 6)
      else mp0.Ml i }

/-- One collaborator call performed by the core, with the arguments the
core passes at the call site. -/
inductive ambe_call_event (RP : Type)
  | unpack_call (frame : ambe_frame)
  | decode_params_call (sf_prev : ambe_subframe) (rp : RP)
  | convert_call (sf : ambe_subframe)
  | enhance_call (mp : mbe_parms)
  | synth_call (cur prev : mbe_parms) (off : ℕ)
  | move_call (src : mbe_parms)
  | tone_call (N : ℤ) (frame : ambe_frame)

/-- Modelled from the spec: the external collaborators of the core,
none of which are under src/.  `unpack` and `decode_params` are the
bit-level parameter codec (`ambe_frame_unpack_raw`,
`ambe_frame_decode_params`); per spec section 7 the parameter decoder
may report malformed bit content, so `decode_params` returns a status
code alongside the two subframes (the source call statement discards
any such status).  `spectralAmpEnhance` transforms one parameter set in
place; `synthesizeSpeech` takes the current converted parameters and
the predecessor synthesis state and produces one 80-sample half block
together with the updated predecessor state (spec section 6(b)); the
current parameter structure is not modified.  `decode_tone` is the
tone reconstruction routine (`ambe_decode_tone`), taking the decoder
state, buffer, sample count and frame, returning a status, the updated
buffer and the updated state. -/
structure ambe_collab (RP : Type) where
  unpack : ambe_frame → RP
  decode_params : ambe_subframe → RP → ℤ × ambe_subframe × ambe_subframe
  spectralAmpEnhance : mbe_parms → mbe_parms
  synthesizeSpeech : mbe_parms → mbe_parms → (ℕ → ℤ) × mbe_parms
  decode_tone : ambe_decoder → (ℕ → ℤ) → ℤ → ambe_frame → ℤ × (ℕ → ℤ) × ambe_decoder

/-- Result of one decode call: return code, output buffer contents,
decoder state after the call, and the collaborator call trace. -/
structure ambe_result (RP : Type) where
  ret : ℤ
  audio : ℕ → ℤ
  dec : ambe_decoder
  trace : List (ambe_call_event RP)

/-- Overwrite `len` samples of `buf` starting at `off` with `src`
(sample `off + k` receives `src k`); all other samples are untouched. -/
def blockWrite (buf : ℕ → ℤ) (off len : ℕ) (src : ℕ → ℤ) : ℕ → ℤ :=
  fun i => if off ≤ i ∧ i < off + len then src (i - off) else buf i

/-- Embedding of `ambe_decode_speech` (ambe.c lines 107-140).  The two
`mbe_parms` stack locals start with indeterminate contents
`mpi0`, `mpi1`.  The C function ignores its `bad` argument and its `N`
argument, calls the collaborators in the traced order, writes 80
samples at offset 0 and 80 samples at offset 80, commits `mp[1]` (via
`mbe_moveMbeParms`) and `sf[1]` (via `memcpy`) into the decoder state,
and unconditionally returns 0. -/
noncomputable def ambe_decode_speech {RP : Type} (c : ambe_collab RP)
    (mpi0 mpi1 : mbe_parms) (dec : ambe_decoder) (audio : ℕ → ℤ) (N : ℤ)
    (frame : ambe_frame) (bad : ℤ) : ambe_result RP :=
  let rp := c.unpack frame
  let dres := c.decode_params dec.sf_prev rp
  let sf0 := dres.2.1
  let sf1 := dres.2.2
  let mp0 := ambe_subframe_to_mbelib mpi0 sf0
  let mp1 := ambe_subframe_to_mbelib mpi1 sf1
  let mp0e := c.spectralAmpEnhance mp0
  let mp1e := c.spectralAmpEnhance mp1
  let s0 := c.synthesizeSpeech mp0e dec.mp_prev
  let s1 := c.synthesizeSpeech mp1e mp0e
  let audio1 := blockWrite audio 0 80 s0.1
  let audio2 := blockWrite audio1 80 80 s1.1
  { ret := 0
    audio := audio2
    dec := { sf_prev := sf1, mp_prev := mp1e }
    trace := [ambe_call_event.unpack_call frame,
              ambe_call_event.decode_params_call dec.sf_prev rp,
              ambe_call_event.convert_call sf0,
              ambe_call_event.convert_call sf1,
              ambe_call_event.enhance_call mp0,
              ambe_call_event.enhance_call mp1,
              ambe_call_event.synth_call mp0e dec.mp_prev 0,
              ambe_call_event.synth_call mp1e mp0e 80,
              ambe_call_event.move_call mp1e] }

/-- Embedding of `ambe_decode_frame` (ambe.c lines 150-169): dispatch
on the frame classification.  The Silence arm executes
`memset(audio, 0, 160*sizeof(int16_t))` — 160 zero samples regardless
of `N` — touches no decoder state and returns 0.  The Tone arm
delegates to the tone decoder without the `bad` flag.  The C default
return `-EINVAL` after the switch is unreachable (the switch covers
the whole enumeration) and has no counterpart in the total match. -/
noncomputable def ambe_decode_frame {RP : Type} (c : ambe_collab RP)
    (mpi0 mpi1 : mbe_parms) (dec : ambe_decoder) (audio : ℕ → ℤ) (N : ℤ)
    (frame : ambe_frame) (bad : ℤ) : ambe_result RP :=
  match ambe_classify_frame frame with
  | ambe_frame_type.speech => ambe_decode_speech c mpi0 mpi1 dec audio N frame bad
  | ambe_frame_type.silence =>
    { ret := 0
      audio := blockWrite audio 0 160 (fun _ => 0)
      dec := dec
      trace := [] }
  | ambe_frame_type.tone =>
    let t := c.decode_tone dec audio N frame
    { ret := t.1
      audio := t.2.1
      dec := t.2.2
      trace := [ambe_call_event.tone_call N frame] }

/-- Embedding of `ambe_decode_dtx` (ambe.c lines 176-183):
`memset(audio, 0, sizeof(int16_t) * N)` then `return 0`; the decoder
state is untouched. -/
def ambe_decode_dtx (dec : ambe_decoder) (audio : ℕ → ℤ) (N : ℤ) :
    ℤ × (ℕ → ℤ) × ambe_decoder :=
  (0, fun i => if (i : ℤ) < N then 0 else audio i, dec)

/-- A frame whose first byte is `b` and whose other nine bytes are 0. -/
def frame_of_byte (b : Fin 256) : ambe_frame :=
  fun j => if j = 0 then b else 0

/-- Concrete tone frame: first byte 0xFC. -/
def frameTone : ambe_frame := frame_of_byte 252

/-- Concrete silence frame: first byte 0xF8. -/
def frameSilence : ambe_frame := frame_of_byte 248

/-- Concrete speech frame: first byte 0x00. -/
def frameSpeech : ambe_frame := frame_of_byte 0

/-- A concrete subframe used in concrete runs. -/
noncomputable def sfEx : ambe_subframe :=
  { f0 := 1, L := 1, v_uv := fun _ => 1, Mlog := fun _ => 0 }

/-- A concrete subframe with zero fundamental frequency. -/
noncomputable def sfZero : ambe_subframe :=
  { f0 := 0, L := 1, v_uv := fun _ => 1, Mlog := fun _ => 0 }

/-- Concrete (arbitrary) mbelib parameter contents. -/
noncomputable def mpEx : mbe_parms :=
  { w0 := 0, L := 0, Vl := fun _ => 0, Ml := fun _ => 0 }

/-- Concrete decoder state. -/
noncomputable def decEx : ambe_decoder :=
  { sf_prev := sfEx, mp_prev := mpEx }

/-- Concrete collaborator instance whose parameter decode succeeds. -/
noncomputable def cEx : ambe_collab Unit :=
  { unpack := fun _ => ()
    decode_params := fun _ _ => (0, sfEx, sfEx)
    spectralAmpEnhance := id
    synthesizeSpeech := fun _ _ => (fun _ => 0, mpEx)
    decode_tone := fun d a _ _ => (0, a, d) }

/-- Concrete collaborator instance whose parameter decode reports the
failure status -22 (`-EINVAL`). -/
noncomputable def cFail : ambe_collab Unit :=
  { unpack := fun _ => ()
    decode_params := fun _ _ => (-22, sfEx, sfEx)
    spectralAmpEnhance := id
    synthesizeSpeech := fun _ _ => (fun _ => 0, mpEx)
    decode_tone := fun d a _ _ => (0, a, d) }

/-- Concrete collaborator instance whose parameter decode produces
subframes with zero fundamental frequency. -/
noncomputable def cZero : ambe_collab Unit :=
  { unpack := fun _ => ()
    decode_params := fun _ _ => (0, sfZero, sfZero)
    spectralAmpEnhance := id
    synthesizeSpeech := fun _ _ => (fun _ => 0, mpEx)
    decode_tone := fun d a _ _ => (0, a, d) }

/-- Concrete output buffer holding the value 7 at index 155. -/
def bufEx : ℕ → ℤ :=
  fun i => if i = 155 then 7 else 0

/-- Unfolding lemma for `blockWrite`. -/
theorem blockWrite_apply (buf : ℕ → ℤ) (off len : ℕ) (src : ℕ → ℤ) (i : ℕ) :
    blockWrite buf off len src i =
      if off ≤ i ∧ i < off + len then src (i - off) else buf i := rfl

/-- C4: frame classification is a pure, total, deterministic function of
the first byte.  Any two frames sharing a first byte classify alike;
a first byte with top six bits 111111 yields Tone, 111110 yields
Silence, and every other first byte yields Speech. -/
theorem classify_first_byte_total (f g : ambe_frame) (h : f 0 = g 0) :
    ambe_classify_frame f = ambe_classify_frame g
    ∧ ((f 0).val >>> 2 = 63 → ambe_classify_frame f = ambe_frame_type.tone)
    ∧ ((f 0).val >>> 2 = 62 → ambe_classify_frame f = ambe_frame_type.silence)
    ∧ ((f 0).val >>> 2 ≠ 63 → (f 0).val >>> 2 ≠ 62 →
        ambe_classify_frame f = ambe_frame_type.speech) := by
  have hfg : ambe_classify_frame f = ambe_classify_frame g := by
    unfold ambe_classify_frame
    rw [h]
  have key : ∀ b : Fin 256,
      ((b.val >>> 2 = 63 →
        (if b.val &&& 0xfc = 0xfc then ambe_frame_type.tone
         else if b.val &&& 0xfc = 0xf8 then ambe_frame_type.silence
         else ambe_frame_type.speech) = ambe_frame_type.tone)
      ∧ (b.val >>> 2 = 62 →
        (if b.val &&& 0xfc = 0xfc then ambe_frame_type.tone
         else if b.val &&& 0xfc = 0xf8 then ambe_frame_type.silence
         else ambe_frame_type.speech) = ambe_frame_type.silence)
      ∧ (b.val >>> 2 ≠ 63 → b.val >>> 2 ≠ 62 →
        (if b.val &&& 0xfc = 0xfc then ambe_frame_type.tone
         else if b.val &&& 0xfc = 0xf8 then ambe_frame_type.silence
         else ambe_frame_type.speech) = ambe_frame_type.speech)) := by decide
  exact ⟨hfg, (key (f 0)).1, (key (f 0)).2.1, (key (f 0)).2.2⟩

/-- Witness for C4 at the concrete first bytes 0xFC, 0xF8 and 0x00. -/
theorem classify_first_byte_total_witness :
    ambe_classify_frame frameTone = ambe_frame_type.tone
    ∧ ambe_classify_frame frameSilence = ambe_frame_type.silence
    ∧ ambe_classify_frame frameSpeech = ambe_frame_type.speech :=
  ⟨(classify_first_byte_total frameTone frameTone rfl).2.1 (by decide),
   (classify_first_byte_total frameSilence frameSilence rfl).2.2.1 (by decide),
   (classify_first_byte_total frameSpeech frameSpeech rfl).2.2.2 (by decide) (by decide)⟩

/-- C1 counterexample: with requested sample count N = 152 on a Silence
frame, the decode entry point also overwrites sample 155 (beyond the
requested range) with 0, where the caller's buffer held 7 — so it does
not write "no more than the requested N samples". -/
theorem silence_write_beyond_requested :
    (ambe_decode_frame cEx mpEx mpEx decEx bufEx 152 frameSilence 0).audio 155 = 0
    ∧ bufEx 155 = 7
    ∧ (ambe_decode_frame cEx mpEx mpEx decEx bufEx 152 frameSilence 0).audio 155
        ≠ bufEx 155 := by
  refine ⟨rfl, rfl, ?_⟩
  decide

/-- C1 (amended): for every Silence frame and every requested sample
count, the decode entry point returns success and writes exactly 160
samples of value 0 — the requested count N is ignored; samples from
index 160 on are untouched. -/
theorem silence_writes_exactly_160_zeros {RP : Type} (c : ambe_collab RP)
    (mpi0 mpi1 : mbe_parms) (dec : ambe_decoder) (audio : ℕ → ℤ) (N : ℤ)
    (frame : ambe_frame) (bad : ℤ)
    (h : ambe_classify_frame frame = ambe_frame_type.silence) :
    (ambe_decode_frame c mpi0 mpi1 dec audio N frame bad).ret = 0
    ∧ (∀ i : ℕ, i < 160 →
        (ambe_decode_frame c mpi0 mpi1 dec audio N frame bad).audio i = 0)
    ∧ (∀ i : ℕ, 160 ≤ i →
        (ambe_decode_frame c mpi0 mpi1 dec audio N frame bad).audio i = audio i) := by
  unfold ambe_decode_frame
  rw [h]
  refine ⟨rfl, ?_, ?_⟩
  · intro i hi
    show blockWrite audio 0 160 (fun _ => 0) i = 0
    rw [blockWrite_apply, if_pos ⟨Nat.zero_le i, by omega⟩]
  · intro i hi
    show blockWrite audio 0 160 (fun _ => 0) i = audio i
    rw [blockWrite_apply, if_neg (by omega)]

/-- Witness for the amended C1, at the concrete silence frame 0xF8. -/
theorem silence_writes_exactly_160_zeros_witness :
    ambe_classify_frame frameSilence = ambe_frame_type.silence
    ∧ ((ambe_decode_frame cEx mpEx mpEx decEx bufEx 152 frameSilence 0).ret = 0
      ∧ (∀ i : ℕ, i < 160 →
          (ambe_decode_frame cEx mpEx mpEx decEx bufEx 152 frameSilence 0).audio i = 0)
      ∧ (∀ i : ℕ, 160 ≤ i →
          (ambe_decode_frame cEx mpEx mpEx decEx bufEx 152 frameSilence 0).audio i
            = bufEx i)) :=
  ⟨by decide,
   silence_writes_exactly_160_zeros cEx mpEx mpEx decEx bufEx 152 frameSilence 0 (by decide)⟩

/-- C6: for every Silence frame, the decoder state after the call
equals the decoder state before the call, and neither the output
samples nor the return code depend on the decoder state (the Silence
path neither reads nor writes the speech-interpolation state). -/
theorem silence_preserves_decoder_state {RP : Type} (c : ambe_collab RP)
    (mpi0 mpi1 : mbe_parms) (d1 d2 : ambe_decoder) (audio : ℕ → ℤ) (N : ℤ)
    (frame : ambe_frame) (bad : ℤ)
    (h : ambe_classify_frame frame = ambe_frame_type.silence) :
    (ambe_decode_frame c mpi0 mpi1 d1 audio N frame bad).dec = d1
    ∧ (ambe_decode_frame c mpi0 mpi1 d1 audio N frame bad).audio
        = (ambe_decode_frame c mpi0 mpi1 d2 audio N frame bad).audio
    ∧ (ambe_decode_frame c mpi0 mpi1 d1 audio N frame bad).ret
        = (ambe_decode_frame c mpi0 mpi1 d2 audio N frame bad).ret := by
  unfold ambe_decode_frame
  rw [h]
  exact ⟨rfl, rfl, rfl⟩

/-- Witness for C6, at the concrete silence frame 0xF8 and two
distinct decoder states. -/
theorem silence_preserves_decoder_state_witness :
    (ambe_decode_frame cEx mpEx mpEx decEx bufEx 160 frameSilence 0).dec = decEx
    ∧ (ambe_decode_frame cEx mpEx mpEx decEx bufEx 160 frameSilence 0).audio
        = (ambe_decode_frame cEx mpEx mpEx ⟨sfZero, mpEx⟩ bufEx 160 frameSilence 0).audio
    ∧ (ambe_decode_frame cEx mpEx mpEx decEx bufEx 160 frameSilence 0).ret
        = (ambe_decode_frame cEx mpEx mpEx ⟨sfZero, mpEx⟩ bufEx 160 frameSilence 0).ret :=
  silence_preserves_decoder_state cEx mpEx mpEx decEx ⟨sfZero, mpEx⟩ bufEx 160
    frameSilence 0 (by decide)

/-- C9: for every decoder state and every N in 152..168 (boundaries
included), the DTX entry point returns 0 (success, never a negative
error code), overwrites exactly the first N output samples with zero,
and leaves the samples from index N on untouched. -/
theorem dtx_always_succeeds_zero_fill (dec : ambe_decoder) (audio : ℕ → ℤ) (N : ℤ)
    (h1 : 152 ≤ N) (h2 : N ≤ 168) :
    (ambe_decode_dtx dec audio N).1 = 0
    ∧ (∀ i : ℕ, (i : ℤ) < N → (ambe_decode_dtx dec audio N).2.1 i = 0)
    ∧ (∀ i : ℕ, N ≤ (i : ℤ) → (ambe_decode_dtx dec audio N).2.1 i = audio i) := by
  refine ⟨rfl, ?_, ?_⟩
  · intro i hi
    simp only [ambe_decode_dtx]
    rw [if_pos hi]
  · intro i hi
    simp only [ambe_decode_dtx]
    rw [if_neg (by omega)]

/-- Witness for C9 at both boundary sample counts 152 and 168. -/
theorem dtx_always_succeeds_zero_fill_witness :
    ((ambe_decode_dtx decEx bufEx 152).1 = 0
      ∧ (∀ i : ℕ, (i : ℤ) < 152 → (ambe_decode_dtx decEx bufEx 152).2.1 i = 0)
      ∧ (∀ i : ℕ, (152 : ℤ) ≤ (i : ℤ) → (ambe_decode_dtx decEx bufEx 152).2.1 i = bufEx i))
    ∧ ((ambe_decode_dtx decEx bufEx 168).1 = 0
      ∧ (∀ i : ℕ, (i : ℤ) < 168 → (ambe_decode_dtx decEx bufEx 168).2.1 i = 0)
      ∧ (∀ i : ℕ, (168 : ℤ) ≤ (i : ℤ) → (ambe_decode_dtx decEx bufEx 168).2.1 i = bufEx i)) :=
  ⟨dtx_always_succeeds_zero_fill decEx bufEx 152 (by norm_num) (by norm_num),
   dtx_always_succeeds_zero_fill decEx bufEx 168 (by norm_num) (by norm_num)⟩

/-- C10: the bad-frame indicator has no effect on decoding — for every
collaborator instance, decoder state, buffer, sample count and frame,
the complete result (return code, output samples, final decoder state
and collaborator call trace) of the decode entry point with bad = 0
equals the result with bad = 1. -/
theorem bfi_noninterference {RP : Type} (c : ambe_collab RP)
    (mpi0 mpi1 : mbe_parms) (dec : ambe_decoder) (audio : ℕ → ℤ) (N : ℤ)
    (frame : ambe_frame) :
    ambe_decode_frame c mpi0 mpi1 dec audio N frame 0
      = ambe_decode_frame c mpi0 mpi1 dec audio N frame 1 := rfl

/-- C2 counterexample: at a concrete Speech frame and decoder state,
the entire run of `ambe_decode_speech` — including the recorded
parameter-decode call with every argument the core passes to the
collaborator `ambe_frame_decode_params` (previous subframe and raw
parameters; there is no bad-flag argument at that call site) — is
identical for bad = 0 and bad = 1.  The parameter-decode step therefore
does not receive the bad-frame indicator, contrary to the claim. -/
theorem bad_flag_absent_from_decode_call :
    ambe_decode_speech cEx mpEx mpEx decEx bufEx 160 frameSpeech 0
      = ambe_decode_speech cEx mpEx mpEx decEx bufEx 160 frameSpeech 1
    ∧ (ambe_decode_speech cEx mpEx mpEx decEx bufEx 160 frameSpeech 0).trace[1]?
      = some (ambe_call_event.decode_params_call decEx.sf_prev ())
    ∧ (ambe_decode_speech cEx mpEx mpEx decEx bufEx 160 frameSpeech 1).trace[1]?
      = some (ambe_call_event.decode_params_call decEx.sf_prev ()) :=
  ⟨rfl, rfl, rfl⟩

/-- C2 (amended): the bad-frame indicator is accepted but ignored by
the speech path — the parameter-decode collaborator is invoked with
only the previous-subframe context and the raw parameters, and the
whole result of `ambe_decode_speech` (trace included) is identical for
any two values of the bad argument. -/
theorem bad_flag_ignored_by_speech_path {RP : Type} (c : ambe_collab RP)
    (mpi0 mpi1 : mbe_parms) (dec : ambe_decoder) (audio : ℕ → ℤ) (N : ℤ)
    (frame : ambe_frame) (b b' : ℤ) :
    ambe_decode_speech c mpi0 mpi1 dec audio N frame b
      = ambe_decode_speech c mpi0 mpi1 dec audio N frame b'
    ∧ (ambe_decode_speech c mpi0 mpi1 dec audio N frame b).trace[1]?
      = some (ambe_call_event.decode_params_call dec.sf_prev (c.unpack frame)) :=
  ⟨rfl, rfl⟩

/-- C3: for every speech decode, the first synthesis call receives the
session's carried-over synthesis state `dec.mp_prev` as predecessor
context; the second synthesis call receives subframe 0's converted
(and enhanced) parameters — not the session's old state — as
predecessor context; after the call the session synthesis state is
subframe 1's converted parameters and the session subframe is
subframe 1; and any subsequent speech decode started from the
resulting state passes exactly that committed state as predecessor
context into its own first synthesis call. -/
theorem speech_synthesis_chaining {RP : Type} (c : ambe_collab RP)
    (mpi0 mpi1 : mbe_parms) (dec : ambe_decoder) (audio : ℕ → ℤ) (N : ℤ)
    (frame : ambe_frame) (bad : ℤ) :
    (ambe_decode_speech c mpi0 mpi1 dec audio N frame bad).trace[6]?
      = some (ambe_call_event.synth_call
          (c.spectralAmpEnhance (ambe_subframe_to_mbelib mpi0
            (c.decode_params dec.sf_prev (c.unpack frame)).2.1))
          dec.mp_prev 0)
    ∧ (ambe_decode_speech c mpi0 mpi1 dec audio N frame bad).trace[7]?
      = some (ambe_call_event.synth_call
          (c.spectralAmpEnhance (ambe_subframe_to_mbelib mpi1
            (c.decode_params dec.sf_prev (c.unpack frame)).2.2))
          (c.spectralAmpEnhance (ambe_subframe_to_mbelib mpi0
            (c.decode_params dec.sf_prev (c.unpack frame)).2.1))
          80)
    ∧ (ambe_decode_speech c mpi0 mpi1 dec audio N frame bad).dec.mp_prev
      = c.spectralAmpEnhance (ambe_subframe_to_mbelib mpi1
          (c.decode_params dec.sf_prev (c.unpack frame)).2.2)
    ∧ (ambe_decode_speech c mpi0 mpi1 dec audio N frame bad).dec.sf_prev
      = (c.decode_params dec.sf_prev (c.unpack frame)).2.2
    ∧ ∀ (c2 : ambe_collab RP) (mpi0b mpi1b : mbe_parms) (audio2 : ℕ → ℤ)
        (N2 bad2 : ℤ) (frame2 : ambe_frame),
        (ambe_decode_speech c2 mpi0b mpi1b
            (ambe_decode_speech c mpi0 mpi1 dec audio N frame bad).dec
            audio2 N2 frame2 bad2).trace[6]?
          = some (ambe_call_event.synth_call
              (c2.spectralAmpEnhance (ambe_subframe_to_mbelib mpi0b
                (c2.decode_params
                  (ambe_decode_speech c mpi0 mpi1 dec audio N frame bad).dec.sf_prev
                  (c2.unpack frame2)).2.1))
              (c.spectralAmpEnhance (ambe_subframe_to_mbelib mpi1
                (c.decode_params dec.sf_prev (c.unpack frame)).2.2))
              0) :=
  ⟨rfl, rfl, rfl, rfl, fun _ _ _ _ _ _ _ => rfl⟩

/-- C5 counterexample: with a collaborator whose parameter decode
reports the failure status -22 on a concrete Speech frame, the decode
entry point still returns 0 (success), so a collaborator failure is
swallowed rather than surfaced as a negative error code. -/
theorem collab_failure_swallowed :
    (cFail.decode_params decEx.sf_prev (cFail.unpack frameSpeech)).1 = -22
    ∧ (ambe_decode_frame cFail mpEx mpEx decEx bufEx 160 frameSpeech 0).ret = 0
    ∧ ¬ (ambe_decode_frame cFail mpEx mpEx decEx bufEx 160 frameSpeech 0).ret < 0 := by
  refine ⟨rfl, rfl, ?_⟩
  show ¬ (0 : ℤ) < 0
  decide

/-- C5 (amended): the speech path of the decode entry point returns 0
for every input; the status reported by the parameter-decode
collaborator is discarded, so even a reported failure is not
propagated as a negative error code. -/
theorem speech_ignores_collab_status {RP : Type} (c : ambe_collab RP)
    (mpi0 mpi1 : mbe_parms) (dec : ambe_decoder) (audio : ℕ → ℤ) (N : ℤ)
    (frame : ambe_frame) (bad : ℤ)
    (hfail : (c.decode_params dec.sf_prev (c.unpack frame)).1 ≠ 0)
    (hsp : ambe_classify_frame frame = ambe_frame_type.speech) :
    (ambe_decode_frame c mpi0 mpi1 dec audio N frame bad).ret = 0 := by
  unfold ambe_decode_frame
  rw [hsp]
  rfl

/-- Witness for the amended C5 at the concrete failing collaborator. -/
theorem speech_ignores_collab_status_witness :
    (cFail.decode_params decEx.sf_prev (cFail.unpack frameSpeech)).1 ≠ 0
    ∧ ambe_classify_frame frameSpeech = ambe_frame_type.speech
    ∧ (ambe_decode_frame cFail mpEx mpEx decEx bufEx 160 frameSpeech 1).ret = 0 :=
  ⟨by decide, by decide,
   speech_ignores_collab_status cFail mpEx mpEx decEx bufEx 160 frameSpeech 1
     (by decide) (by decide)⟩

/-- C7 counterexample: with a collaborator whose parameter decode
produces subframes with fundamental frequency 0 on a concrete Speech
frame, the decode entry point still converts that subframe (the
conversion call appears in the trace) and returns 0 — no decode error
rejects the zero frequency before the converter, and the converted
angular frequency is 0, not strictly positive. -/
theorem zero_f0_reaches_converter :
    sfZero.f0 = 0
    ∧ (ambe_decode_frame cZero mpEx mpEx decEx bufEx 160 frameSpeech 0).ret = 0
    ∧ (ambe_decode_frame cZero mpEx mpEx decEx bufEx 160 frameSpeech 0).trace[2]?
        = some (ambe_call_event.convert_call sfZero)
    ∧ (ambe_subframe_to_mbelib mpEx sfZero).w0 = 0 := by
  refine ⟨rfl, rfl, rfl, ?_⟩
  show sfZero.f0 * (2 * Real.pi) = 0
  rw [show sfZero.f0 = (0 : ℝ) from rfl]
  ring

/-- C7 (amended): the speech path performs no validation of the
fundamental frequency — both decoded subframes are passed to the
subframe converter unconditionally, whatever their `f0`, and the
decode entry point returns 0 rather than a decode error. -/
theorem speech_converts_unconditionally {RP : Type} (c : ambe_collab RP)
    (mpi0 mpi1 : mbe_parms) (dec : ambe_decoder) (audio : ℕ → ℤ) (N : ℤ)
    (frame : ambe_frame) (bad : ℤ)
    (hsp : ambe_classify_frame frame = ambe_frame_type.speech) :
    (ambe_decode_frame c mpi0 mpi1 dec audio N frame bad).ret = 0
    ∧ (ambe_decode_frame c mpi0 mpi1 dec audio N frame bad).trace[2]?
        = some (ambe_call_event.convert_call
            (c.decode_params dec.sf_prev (c.unpack frame)).2.1)
    ∧ (ambe_decode_frame c mpi0 mpi1 dec audio N frame bad).trace[3]?
        = some (ambe_call_event.convert_call
            (c.decode_params dec.sf_prev (c.unpack frame)).2.2) := by
  unfold ambe_decode_frame
  rw [hsp]
  exact ⟨rfl, rfl, rfl⟩

/-- Witness for the amended C7 at the zero-frequency collaborator. -/
theorem speech_converts_unconditionally_witness :
    ambe_classify_frame frameSpeech = ambe_frame_type.speech
    ∧ ((ambe_decode_frame cZero mpEx mpEx decEx bufEx 160 frameSpeech 1).ret = 0
      ∧ (ambe_decode_frame cZero mpEx mpEx decEx bufEx 160 frameSpeech 1).trace[2]?
          = some (ambe_call_event.convert_call sfZero)
      ∧ (ambe_decode_frame cZero mpEx mpEx decEx bufEx 160 frameSpeech 1).trace[3]?
          = some (ambe_call_event.convert_call sfZero)) :=
  ⟨by decide,
   speech_converts_unconditionally cZero mpEx mpEx decEx bufEx 160 frameSpeech 1 (by decide)⟩

/-- Truncation toward zero agrees with the floor on non-negative input. -/
theorem ctrunc_of_nonneg (x : ℝ) (hx : 0 ≤ x) : ctrunc x = ⌊x⌋ := if_pos hx

/-- C8: for a subframe of order at least 1 and strictly positive
fundamental frequency, the converter sets the angular frequency to
f0 times 2 pi and, for each harmonic i in 1..L, takes the voicing flag
from the voicing array at index floor((i-1) * 16 * f0); the magnitude
is 2 to the power Mlog[i-1], divided by 6, and an unvoiced harmonic
(flag 0) is additionally scaled by 0.2046 divided by the square root
of the angular frequency, while a voiced harmonic is not. -/
theorem subframe_converter_correct (mp0 : mbe_parms) (sf : ambe_subframe) (i : ℤ)
    (hL : 1 ≤ sf.L) (hf : 0 < sf.f0) (hi1 : 1 ≤ i) (hiL : i ≤ sf.L) :
    (ambe_subframe_to_mbelib mp0 sf).w0 = sf.f0 * (2 * Real.pi)
    ∧ (ambe_subframe_to_mbelib mp0 sf).Vl i
        = sf.v_uv ⌊((i - 1 : ℤ) : ℝ) * 16 * sf.f0⌋
    ∧ (ambe_subframe_to_mbelib mp0 sf).Ml i
        = (if sf.v_uv ⌊((i - 1 : ℤ) : ℝ) * 16 * sf.f0⌋ = 0 then
            (2 : ℝ) ^ (sf.Mlog (i - 1)) / 6
              * (0.2046 / Real.sqrt (sf.f0 * (2 * Real.pi)))
          else (2 : ℝ) ^ (sf.Mlog (i - 1)) / 6) := by
  have h1 : (0 : ℝ) ≤ ((i - 1 : ℤ) : ℝ) := by
    have h0 : (0 : ℤ) ≤ i - 1 := by omega
    exact_mod_cast h0
  have hnn : (0 : ℝ) ≤ ((i - 1 : ℤ) : ℝ) * 16 * sf.f0 :=
    mul_nonneg (mul_nonneg h1 (by norm_num)) hf.le
  have hct : ctrunc (((i - 1 : ℤ) : ℝ) * 16 * sf.f0)
      = ⌊((i - 1 : ℤ) : ℝ) * 16 * sf.f0⌋ := ctrunc_of_nonneg _ hnn
  refine ⟨rfl, ?_, ?_⟩
  · show (if 1 ≤ i ∧ i ≤ sf.L then
        sf.v_uv (ctrunc (((i - 1 : ℤ) : ℝ) * 16 * sf.f0))
      else mp0.Vl i) = sf.v_uv ⌊((i - 1 : ℤ) : ℝ) * 16 * sf.f0⌋
    rw [if_pos ⟨hi1, hiL⟩, hct]
  · show (if 1 ≤ i ∧ i ≤ sf.L then
        (if sf.v_uv (ctrunc (((i - 1 : ℤ) : ℝ) * 16 * sf.f0)) = 0 then
          (2 : ℝ) ^ (sf.Mlog (i - 1)) / 6
            * (0.2046 / Real.sqrt (sf.f0 * (2 * Real.pi)))
        else (2 : ℝ) ^ (sf.Mlog (i - 1)) / 6)
      else mp0.Ml i)
      = (if sf.v_uv ⌊((i - 1 : ℤ) : ℝ) * 16 * sf.f0⌋ = 0 then
          (2 : ℝ) ^ (sf.Mlog (i - 1)) / 6
            * (0.2046 / Real.sqrt (sf.f0 * (2 * Real.pi)))
        else (2 : ℝ) ^ (sf.Mlog (i - 1)) / 6)
    rw [if_pos ⟨hi1, hiL⟩, hct]

/-- Witness for C8 at a concrete subframe with f0 = 1, L = 1, i = 1. -/
theorem subframe_converter_correct_witness :
    (1 ≤ sfEx.L ∧ 0 < sfEx.f0)
    ∧ ((ambe_subframe_to_mbelib mpEx sfEx).w0 = sfEx.f0 * (2 * Real.pi)
      ∧ (ambe_subframe_to_mbelib mpEx sfEx).Vl 1
          = sfEx.v_uv ⌊((1 - 1 : ℤ) : ℝ) * 16 * sfEx.f0⌋
      ∧ (ambe_subframe_to_mbelib mpEx sfEx).Ml 1
          = (if sfEx.v_uv ⌊((1 - 1 : ℤ) : ℝ) * 16 * sfEx.f0⌋ = 0 then
              (2 : ℝ) ^ (sfEx.Mlog (1 - 1)) / 6
                * (0.2046 / Real.sqrt (sfEx.f0 * (2 * Real.pi)))
            else (2 : ℝ) ^ (sfEx.Mlog (1 - 1)) / 6)) :=
  ⟨⟨by decide, by rw [show sfEx.f0 = (1 : ℝ) from rfl]; norm_num⟩,
   subframe_converter_correct mpEx sfEx 1 (by decide)
     (by rw [show sfEx.f0 = (1 : ℝ) from rfl]; norm_num) (by decide) (by decide)⟩
